import Mathlib

set_option maxHeartbeats 800000

namespace Pw

/-!
Shallow embedding of the Playwright page-object test suite
(BasePage / PortalPage / DashboardPage / RequirementsPage /
InternationalStudentPage / LoginPage / EllucianLoginPage and the test
scripts).  Fallible host calls (queries, textContent, clicks, evaluate)
are modelled as `Except Unit` values supplied by the document model; a
`.error` value models a rejected promise (a thrown exception).  A JS
`try { ... } catch { return v }` becomes a match on the `Except` body.
-/

/-- JS case-insensitive substring test used throughout the page objects:
the semantics of `hay.toLowerCase().includes(pat.toLowerCase())`.
`hasInfixChars pat l` scans the suffixes of `l` for `pat` as prefix. -/
def hasInfixChars (pat : List Char) : List Char → Bool
  | [] => pat.isEmpty
  | c :: rest => pat.isPrefixOf (c :: rest) || hasInfixChars pat rest

/-- Case-insensitive containment of `pat` in `hay` (both lowercased per char,
as `String.prototype.toLowerCase` does for the ASCII names used here). -/
def containsCI (hay pat : String) : Bool :=
  hasInfixChars (pat.data.map Char.toLower) (hay.data.map Char.toLower)

/-- Outcome of one fallible host (Playwright) call: `.error` models a
rejected promise, i.e. a thrown exception at the `await`. -/
abbrev JsResult (α : Type) := Except Unit α

/-- A button element inside a card (matches `cardButtonSelector`):
the outcome of reading its text, and whether scroll+`click({force:true})`
on it resolves. -/
structure ButtonElem where
  textOp : JsResult String
  clickOk : Bool

/-- An icon element inside a card (matches the icon selector):
its `isVisible()` answer and whether clicking it resolves. -/
structure IconElem where
  visible : Bool
  clickOk : Bool

/-- A card element as observed by the page objects, in document order.
`titleOp` is the outcome of `card.$(cardTitleSelector)` followed by
`textContent()`: `.error` models a throw, `.ok ""` models a missing title
element or null/empty text (both make the JS loop `continue`).  `textOp`
is `card.textContent()` likewise.  `visible` is the host visibility of the
card (recorded here because the spec talks about it; `findCard` never
consults it).  `scrollOk` is whether `scrollIntoViewIfNeeded()` on the
card resolves.  `buttons` is `card.$$(cardButtonSelector)`.  `icon` is
`card.$(iconSelector)` and `altIconEval` the `card.evaluate(...)`
alternative icon click (its boolean return). -/
structure CardElem where
  titleOp : JsResult String
  textOp : JsResult String
  visible : Bool
  scrollOk : Bool
  buttons : JsResult (List ButtonElem)
  clickOk : Bool
  icon : JsResult (Option IconElem)
  altIconEval : JsResult Bool

/-- A static document as probed by the page objects.  `cards` is
`page.$$(cardSelector)` in document order.  `textCount name` is the match
count of `page.getByText(new RegExp(name, "i"))`.  `textScrollOk` is
whether scrolling the first text match resolves.  `roleButtonCount bt` is
the count of `page.getByRole("button", ...bt...)` and `roleButtonClickOk`
whether clicking its first element resolves. -/
structure PageDoc where
  cards : JsResult (List CardElem)
  textCount : String → Nat
  textScrollOk : Bool
  roleButtonCount : String → Nat
  roleButtonClickOk : Bool

/-- Reference returned by `DashboardPage.findCard`: an ElementHandle of the
i-th card, or the Locator of the first page-wide text match. -/
inductive CardRef where
  | card (i : Nat) (c : CardElem)
  | textFirst

/-- One strategy loop of `findCard` (`for (const card of cards) ...`),
generic in the field read per card (`titleOp` for the title strategy,
`textOp` for the content strategy): skip cards whose read yields a falsy
text, return the first whose text contains the name case-insensitively
(after `scrollIntoViewIfNeeded`, whose failure throws), propagate any
thrown error. `i` is the document-order index of the head card. -/
def findByFieldFrom (get : CardElem → JsResult String) (name : String) :
    Nat → List CardElem → JsResult (Option (Nat × CardElem))
  | _, [] => .ok none
  | i, c :: rest =>
    match get c with
    | .error e => .error e
    | .ok t =>
      if t = "" then findByFieldFrom get name (i + 1) rest
      else if containsCI t name then
        (if c.scrollOk then .ok (some (i, c)) else .error ())
      else findByFieldFrom get name (i + 1) rest

/-- Spec-side matching predicate of one strategy: the card's read field is
non-falsy and contains the name case-insensitively. -/
def fieldMatches (get : CardElem → JsResult String) (name : String) (c : CardElem) : Bool :=
  match get c with
  | .error _ => false
  | .ok t => if t = "" then false else containsCI t name

/-- Title-strategy match predicate of `findCard`. -/
def titleMatches (name : String) : CardElem → Bool :=
  fieldMatches (fun c => c.titleOp) name

/-- Content-strategy match predicate of `findCard`. -/
def contentMatches (name : String) : CardElem → Bool :=
  fieldMatches (fun c => c.textOp) name

/-- Spec-side first match in document order: index and element of the first
list entry satisfying `p`. -/
def firstMatch (p : CardElem → Bool) : List CardElem → Option (Nat × CardElem)
  | [] => none
  | c :: rest =>
    if p c then some (0, c)
    else (firstMatch p rest).map (fun x => (x.1 + 1, x.2))

/-- True when a fallible call resolved. -/
def jsOk {α : Type} : JsResult α → Bool
  | .ok _ => true
  | .error _ => false

/-- A card none of whose host calls used by `findCard` throws. -/
def cardClean (c : CardElem) : Bool :=
  jsOk c.titleOp && jsOk c.textOp && c.scrollOk

/-- Body of `PortalPage.findCard` (the code inside its `try`): query all
cards, title strategy, then content strategy; no page-wide text strategy.
(The preceding `waitForPortalPageLoad()` call has no effect on a static
document.) -/
def findCardBodyP (d : PageDoc) (name : String) : JsResult (Option (Nat × CardElem)) :=
  match d.cards with
  | .error e => .error e
  | .ok cs =>
    match findByFieldFrom (fun c => c.titleOp) name 0 cs with
    | .error e => .error e
    | .ok (some ic) => .ok (some ic)
    | .ok none => findByFieldFrom (fun c => c.textOp) name 0 cs

/-- `PortalPage.findCard`: the body wrapped in its `try/catch`, which turns
any thrown error into a `null` return. -/
def findCardP (d : PageDoc) (name : String) : Option (Nat × CardElem) :=
  match findCardBodyP d name with
  | .ok r => r
  | .error _ => none

/-- Body of `DashboardPage.findCard` (inside its `try`): title strategy,
content strategy, then the page-wide `page.getByText(new RegExp(name,"i"))`
strategy returning the first match when the count is positive. -/
def findCardBodyD (d : PageDoc) (name : String) : JsResult (Option CardRef) :=
  match d.cards with
  | .error e => .error e
  | .ok cs =>
    match findByFieldFrom (fun c => c.titleOp) name 0 cs with
    | .error e => .error e
    | .ok (some (i, c)) => .ok (some (.card i c))
    | .ok none =>
      match findByFieldFrom (fun c => c.textOp) name 0 cs with
      | .error e => .error e
      | .ok (some (i, c)) => .ok (some (.card i c))
      | .ok none =>
        if 0 < d.textCount name then
          (if d.textScrollOk then .ok (some .textFirst) else .error ())
        else .ok none

/-- `DashboardPage.findCard`: body wrapped in its `try/catch` (errors
become `null`). -/
def findCardD (d : PageDoc) (name : String) : Option CardRef :=
  match findCardBodyD d name with
  | .ok r => r
  | .error _ => none

/-- Session-visible side effects of a `findCard` call: which element was
last scrolled into view, and how many diagnostic screenshots were taken. -/
structure SessionState where
  scrolledTo : Option CardRef
  screenshots : Nat

/-- `DashboardPage.findCard` with its side effects threaded as state:
the hit (if any) is scrolled into view and a screenshot is taken; the
returned reference is computed from the static document alone. -/
def findCardDSt (d : PageDoc) (name : String) (s : SessionState) :
    Option CardRef × SessionState :=
  match findCardD d name with
  | some r => (some r, { scrolledTo := some r, screenshots := s.screenshots + 1 })
  | none => (none, { scrolledTo := s.scrolledTo, screenshots := s.screenshots + 1 })

/-- Button search of `clickCardButton` inside the card: first button whose
non-falsy text contains the target case-insensitively; errors propagate. -/
def buttonFindFrom (bt : String) : List ButtonElem → JsResult (Option ButtonElem)
  | [] => .ok none
  | b :: rest =>
    match b.textOp with
    | .error e => .error e
    | .ok t =>
      if t = "" then buttonFindFrom bt rest
      else if containsCI t bt then .ok (some b)
      else buttonFindFrom bt rest

/-- Body of `PortalPage.clickCardButton` (inside its `try`): find the card
(`findCard` itself never throws), then with a button text search the card's
buttons, fall back to the page-wide role search, then optionally click the
card itself; without a button text click the card's first button. -/
def clickCardButtonBody (d : PageDoc) (name : String) (bt : Option String)
    (clickCardIfNoButton : Bool) : JsResult Bool :=
  match findCardP d name with
  | none => .ok false
  | some (_, card) =>
    match bt with
    | some b =>
      match card.buttons with
      | .error e => .error e
      | .ok btns =>
        match buttonFindFrom b btns with
        | .error e => .error e
        | .ok (some btn) => if btn.clickOk then .ok true else .error ()
        | .ok none =>
          if 0 < d.roleButtonCount b then
            (if d.roleButtonClickOk then .ok true else .error ())
          else if clickCardIfNoButton then
            (if card.clickOk then .ok true else .error ())
          else .ok false
    | none =>
      match card.buttons with
      | .error e => .error e
      | .ok [] =>
        if clickCardIfNoButton then
          (if card.clickOk then .ok true else .error ())
        else .ok false
      | .ok (btn :: _) => if btn.clickOk then .ok true else .error ()

/-- `PortalPage.clickCardButton`: body wrapped in its `try/catch`
(errors become `false`). -/
def clickCardButton (d : PageDoc) (name : String) (bt : Option String)
    (clickCardIfNoButton : Bool) : Bool :=
  match clickCardButtonBody d name bt clickCardIfNoButton with
  | .ok b => b
  | .error _ => false

/-- Body of `PortalPage.clickCard` (inside its `try`): find, scroll,
force-click the card. -/
def clickCardBody (d : PageDoc) (name : String) : JsResult Bool :=
  match findCardP d name with
  | none => .ok false
  | some (_, card) =>
    if card.scrollOk then (if card.clickOk then .ok true else .error ())
    else .error ()

/-- `PortalPage.clickCard`: body wrapped in its `try/catch`
(errors become `false`). -/
def clickCard (d : PageDoc) (name : String) : Bool :=
  match clickCardBody d name with
  | .ok b => b
  | .error _ => false

/-- The alternative-approach tail of `clickCardIcon`: the `card.evaluate`
icon click, then the optional fallback to `clickCard` (which never
throws), else `false`. -/
def altIconPath (d : PageDoc) (name : String) (card : CardElem)
    (clickCardIfNoIcon : Bool) : JsResult Bool :=
  match card.altIconEval with
  | .error e => .error e
  | .ok true => .ok true
  | .ok false =>
    if clickCardIfNoIcon then .ok (clickCard d name)
    else .ok false

/-- Body of `PortalPage.clickCardIcon` (inside its `try`): find the card,
probe `card.$(iconSelector)`, click it when visible, otherwise run the
evaluate-based alternative. -/
def clickCardIconBody (d : PageDoc) (name : String) (clickCardIfNoIcon : Bool) :
    JsResult Bool :=
  match findCardP d name with
  | none => .ok false
  | some (_, card) =>
    match card.icon with
    | .error e => .error e
    | .ok (some ic) =>
      if ic.visible then (if ic.clickOk then .ok true else .error ())
      else altIconPath d name card clickCardIfNoIcon
    | .ok none => altIconPath d name card clickCardIfNoIcon

/-- `PortalPage.clickCardIcon`: body wrapped in its `try/catch`
(errors become `false`). -/
def clickCardIcon (d : PageDoc) (name : String) (clickCardIfNoIcon : Bool) : Bool :=
  match clickCardIconBody d name clickCardIfNoIcon with
  | .ok b => b
  | .error _ => false

/-- `PortalPage.getAllCards`: `page.$$(cardSelector)` with its `catch`
returning the empty list. -/
def getAllCards (d : PageDoc) : List CardElem :=
  match d.cards with
  | .ok cs => cs
  | .error _ => []

/-- Host outcomes of the login flow steps: navigation resolves, the three
login-form selectors appear, the two `fill`s and the submit click resolve. -/
structure LoginEnv where
  gotoOk : Bool
  formAppears : Bool
  fillUserOk : Bool
  fillPassOk : Bool
  clickOk : Bool

/-- `EllucianLoginPage.waitForLoginForm`: waits for the username, password
and submit selectors; on failure it screenshots and RE-THROWS ("login form
is critical"). -/
def waitForLoginForm (e : LoginEnv) : Except Unit Unit :=
  if e.formAppears then .ok () else .error ()

/-- `LoginPage.loginAndWaitForNavigation`: navigate, wait for the form,
fill the credentials, click submit.  The inner post-login load wait
swallows its own timeout (`waitForLoadState` catches internally), but any
error from the navigation/login steps reaches the outer `catch`, which
screenshots and RE-THROWS ("login is critical"). -/
def loginAndWaitForNavigation (e : LoginEnv) : Except Unit Unit :=
  if !e.gotoOk then .error ()
  else if !e.formAppears then .error ()
  else if !e.fillUserOk then .error ()
  else if !e.fillPassOk then .error ()
  else if !e.clickOk then .error ()
  else .ok ()

/-- `BasePage.wait`: `safeMs = Math.min(ms, 5000)`; the sleep itself is
wrapped in a catch, so the call always completes after `safeMs`
milliseconds.  Returns the actual sleep duration. -/
def wait (ms : Nat) : Nat := min ms 5000

/-- `RequirementsPage.waitOnRequirementsPage`: delegates
`seconds * 1000` milliseconds to `BasePage.wait`. -/
def waitOnRequirementsPage (seconds : Nat) : Nat := wait (seconds * 1000)

/-- The hardcoded portal URL of the test scripts
(ellucian-portal-login.spec.js line 22). -/
def portalUrl : String :=
  "https://experience-dev-devinternal.elluciancloud.com/ebuildcanadaglobal/"

/-- The hardcoded username of the test scripts (line 23). -/
def username : String := "vberg"

/-- The hardcoded password of the test scripts (line 24). -/
def password : String := "111111"

/-- The configuration consumed by a test run. -/
structure TestConfig where
  url : String
  user : String
  pass : String

/-- The configuration step of ellucian-portal-login.spec.js lines 19-24:
the URL and the credentials are hardcoded literals; the external
environment is never consulted (dotenv is loaded but unused), so no
absence check exists and no error can be raised here. -/
def resolveConfig (env : String → Option String) : Except String TestConfig :=
  Except.ok { url := portalUrl, user := username, pass := password }

/-- Body of `waitForNavigationAfterButtonClick` (inside its `try`):
`pages` is `context.pages()` in opening order, `current` is `this.page`,
`newLoadOk` is whether the new page's `domcontentloaded` wait resolves
within its 10 s budget (a timeout throws).  With at most one page the
`networkidle` wait goes through `waitForLoadState`, which catches
internally and never throws. -/
def waitForNavAfterClickBody (pages : List Nat) (current : Nat)
    (newLoadOk : Bool) : Except Unit Nat :=
  if 1 < pages.length then
    (if newLoadOk then .ok (pages.getD (pages.length - 1) current) else .error ())
  else .ok current

/-- `waitForNavigationAfterButtonClick` (PortalPage and DashboardPage share
the code): body wrapped in its `try/catch`, whose fallback returns the
current page — the operation never throws. -/
def waitForNavAfterClick (pages : List Nat) (current : Nat) (newLoadOk : Bool) : Nat :=
  match waitForNavAfterClickBody pages current newLoadOk with
  | .ok p => p
  | .error _ => current

/-- The card-count stabilization loop of `PortalPage.waitForPortalPageLoad`
(lines 44-68): the list holds the successive poll counts (one poll per
iteration after a 1 s wait), `p` is `previousCardCount` (initially 0) and
`s` is `stableCount`.  The loop runs `while (attempt < maxAttempts &&
stableCount < 3)`; a poll increments the counter exactly when the count
equals the previous count AND is positive, otherwise the counter resets
to 0; `previousCardCount` is updated every iteration.  Returns whether
the loop ended with `stableCount` at 3 (count declared stable). -/
def portalLoop : List Nat → Nat → Nat → Bool
  | [], _, s => decide (3 ≤ s)
  | c :: rest, p, s =>
    if 3 ≤ s then true
    else portalLoop rest c (if c = p ∧ 0 < c then s + 1 else 0)

/-- `waitForPortalPageLoad` stabilization outcome on a poll-count stream:
`maxAttempts = 10` caps the loop at the first 10 polls. -/
def portalStable (cs : List Nat) : Bool := portalLoop (cs.take 10) 0 0

/-- Number of poll iterations the portal stabilization loop executes
(each one preceded by a fixed 1000 ms wait).  The loop contains no
elapsed-time check: it is bounded only by `maxAttempts = 10` and by
stability. -/
def portalPolls : List Nat → Nat → Nat → Nat
  | [], _, _ => 0
  | c :: rest, p, s =>
    if 3 ≤ s then 0
    else 1 + portalPolls rest c (if c = p ∧ 0 < c then s + 1 else 0)

/-- Poll count of the capped portal stabilization loop. -/
def portalPollCount (cs : List Nat) : Nat := portalPolls (cs.take 10) 0 0

/-- Exit reason of the dashboard card-count loop. -/
inductive DashExit where
  | stable
  | timedOut
  | exhausted
deriving DecidableEq

/-- The card-count stabilization loop of
`DashboardPage.waitForDashboardPageLoad` (lines 179-208): the list holds
the successive counts compared (the pre-loop count first), `k` the attempt
index, `p` is `previousCardCount` (initially 0), `s` is `stableCount`.
`elapsed k` is `Date.now() - startTime` at attempt `k`'s `checkTimeout()`
call and `t` the overall timeout.  A comparison increments the counter
exactly when the count equals the previous one — NO positivity requirement
— and the loop breaks as stable once the counter reaches 2;
`previousCardCount` is updated only on a change. -/
def dashLoop (elapsed : Nat → Nat) (t : Nat) :
    List Nat → Nat → Nat → Nat → DashExit
  | [], _, _, _ => .exhausted
  | c :: rest, k, p, s =>
    if t < elapsed k then .timedOut
    else if c = p then
      (if 2 ≤ s + 1 then .stable
       else dashLoop elapsed t rest (k + 1) p (s + 1))
    else dashLoop elapsed t rest (k + 1) c 0

/-- `waitForDashboardPageLoad` stabilization outcome: `maxAttempts = 5`
caps the loop at 5 comparisons. -/
def dashResult (elapsed : Nat → Nat) (t : Nat) (cs : List Nat) : DashExit :=
  dashLoop elapsed t (cs.take 5) 0 0 0

/-- Number of count comparisons the dashboard loop performs (the
`checkTimeout` break precedes the comparison). -/
def dashPolls (elapsed : Nat → Nat) (t : Nat) : List Nat → Nat → Nat → Nat → Nat
  | [], _, _, _ => 0
  | c :: rest, k, p, s =>
    if t < elapsed k then 0
    else if c = p then
      (if 2 ≤ s + 1 then 1
       else 1 + dashPolls elapsed t rest (k + 1) p (s + 1))
    else 1 + dashPolls elapsed t rest (k + 1) c 0

/-- Comparison count of the capped dashboard loop. -/
def dashPollCount (elapsed : Nat → Nat) (t : Nat) (cs : List Nat) : Nat :=
  dashPolls elapsed t (cs.take 5) 0 0 0

/-- Spec-side run predicate: `hasRunFrom qual full need p cs` holds when,
reading `cs` as successive poll counts with previous count `p`, either the
next `need` polls all qualify (each against its predecessor, via `qual`),
or a full fresh run of `full` consecutive qualifying polls occurs later.
`hasRunFrom qual full full p cs` therefore states: somewhere in `cs` there
are `full` consecutive polls each qualifying against the poll before it. -/
def hasRunFrom (qual : Nat → Nat → Bool) (full : Nat) :
    Nat → Nat → List Nat → Bool
  | 0, _, _ => true
  | _ + 1, _, [] => false
  | need + 1, p, c :: rest =>
    (qual c p && hasRunFrom qual full need c rest) || hasRunFrom qual full full c rest

/-- Qualifying poll of the portal loop: count equal to the previous count
and non-zero. -/
def qualP (c p : Nat) : Bool := decide (c = p) && decide (0 < c)

/-- Qualifying comparison of the dashboard loop: count equal to the
previous count (zero counts allowed). -/
def qualD (c p : Nat) : Bool := decide (c = p)

/-- One click-fallback target of `clickPortalFeatures` (the nested
try/catch at InternationalStudentPage.js lines 509-542): whether
`click({force: true})` resolves, whether `typeof el.click === "function"`,
and whether the two `page.evaluate` attempts resolve. -/
structure MenuItem where
  forcedClickOk : Bool
  hasClickFn : Bool
  scriptEvalOk : Bool
  dispatchEvalOk : Bool

/-- The three click strategies, in their fixed order. -/
inductive ClickStrategy where
  | native
  | script
  | dispatch
deriving DecidableEq

/-- Attempt sequence of the nested try/catch click fallback: the forced
click always runs; the script click (method 2) runs only if the forced
click threw; the plain MouseEvent dispatch (method 3) runs only if the
script click threw. -/
def clickAttempts (e : MenuItem) : List ClickStrategy :=
  if e.forcedClickOk then [.native]
  else if e.scriptEvalOk then [.native, .script]
  else [.native, .script, .dispatch]

/-- Value produced by the click sequence: after the try/catch chain the
code returns the bare boolean `true`; `none` models method 3 also
throwing, in which case the error escapes to the caller's catch.  No
strategy identifier is part of the value. -/
def clickOutcome (e : MenuItem) : Option Bool :=
  if e.forcedClickOk then some true
  else if e.scriptEvalOk then some true
  else if e.dispatchEvalOk then some true
  else none

/-- Whether the sequence dispatched a synthetic MouseEvent: method 2 does
so itself when the element has no native `click` function; method 3
always does (when its evaluate resolves). -/
def syntheticDispatched (e : MenuItem) : Bool :=
  if e.forcedClickOk then false
  else if e.scriptEvalOk then !e.hasClickFn
  else e.dispatchEvalOk

/-- Host outcomes of the three pre-loop `waitForSelector` phases of
`waitForPortalPageLoad` (each with budget `timeout / 3`; any failure
throws to the surrounding catch and the function returns without ever
entering the stabilization loop). -/
structure PortalLoadEnv where
  mainContentAppears : Bool
  cardsContainerAppears : Bool
  cardsAppear : Bool
  counts : List Nat

/-- Poll iterations executed by a whole `waitForPortalPageLoad` call: the
stabilization loop runs only when all three selector waits succeeded. -/
def portalLoadPollCount (e : PortalLoadEnv) : Nat :=
  if e.mainContentAppears && e.cardsContainerAppears && e.cardsAppear then
    portalPollCount e.counts
  else 0

/-- A card whose title and content read "Events Hub", hidden
(visibility false); used for the C2 counterexample. -/
def cHidden : CardElem :=
  { titleOp := .ok "Events Hub", textOp := .ok "Events Hub body",
    visible := false, scrollOk := true, buttons := .ok [], clickOk := true,
    icon := .ok none, altIconEval := .ok false }

/-- The same card but visible. -/
def cVisible : CardElem := { cHidden with visible := true }

/-- Document with a hidden matching card before a visible matching card. -/
def exDocVis : PageDoc :=
  { cards := .ok [cHidden, cVisible], textCount := fun _ => 0,
    textScrollOk := true, roleButtonCount := fun _ => 0,
    roleButtonClickOk := true }

/-- Document with no cards but three page-wide text matches. -/
def exDocTxt : PageDoc :=
  { cards := .ok [], textCount := fun _ => 3, textScrollOk := true,
    roleButtonCount := fun _ => 0, roleButtonClickOk := true }

/-- A clean card that matches nothing relevant; used for witnesses. -/
def cPlain : CardElem :=
  { titleOp := .ok "Alpha", textOp := .ok "Alpha body",
    visible := true, scrollOk := true, buttons := .ok [], clickOk := true,
    icon := .ok none, altIconEval := .ok false }

/-- A clean card titled "Beta Card". -/
def cBeta : CardElem :=
  { titleOp := .ok "Beta Card", textOp := .ok "Beta Card body",
    visible := true, scrollOk := true, buttons := .ok [], clickOk := true,
    icon := .ok none, altIconEval := .ok false }

/-- Witness document holding `cPlain` then `cBeta`. -/
def wDoc : PageDoc :=
  { cards := .ok [cPlain, cBeta], textCount := fun _ => 0,
    textScrollOk := true, roleButtonCount := fun _ => 0,
    roleButtonClickOk := true }

/-- Login environment whose login form never appears. -/
def badLogin : LoginEnv :=
  { gotoOk := true,
    formAppears := false,
    fillUserOk := true,
    fillPassOk := true,
    clickOk := true }

/-- Portal load environment whose card selector never matches. -/
def noCardsEnv : PortalLoadEnv :=
  { mainContentAppears := true,
    cardsContainerAppears := true,
    cardsAppear := false,
    counts := [9, 9, 9] }

/-- Document whose card query itself throws. -/
def errDoc : PageDoc :=
  { cards := .error (), textCount := fun _ => 0, textScrollOk := true,
    roleButtonCount := fun _ => 0, roleButtonClickOk := true }

/-- C9: every BasePage.wait sleeps min(ms, 5000) ms — requests at or below
the cap sleep exactly as requested, longer requests are silently capped at
5 seconds, so RequirementsPage.waitOnRequirementsPage with more than 5
seconds actually waits exactly 5000 ms, strictly less than requested. -/
theorem wait_capped (ms seconds : Nat) (h5 : 5 < seconds) :
    wait ms ≤ 5000
    ∧ (ms ≤ 5000 → wait ms = ms)
    ∧ waitOnRequirementsPage seconds = 5000
    ∧ waitOnRequirementsPage seconds < seconds * 1000 := by
  refine ⟨Nat.min_le_right _ _, fun h => Nat.min_eq_left h, ?_, ?_⟩ <;>
    · simp only [waitOnRequirementsPage, wait, Nat.min_def]
      split <;> omega

/-- Witness for `wait_capped` at ms = 3000, seconds = 10. -/
theorem wait_capped_witness :
    wait 3000 ≤ 5000
    ∧ (3000 ≤ 5000 → wait 3000 = 3000)
    ∧ waitOnRequirementsPage 10 = 5000
    ∧ waitOnRequirementsPage 10 < 10 * 1000 :=
  wait_capped 3000 10 (by decide)

/-- C7 counterexample: with every required external configuration value
absent (the environment returns nothing), the test proceeds with the
hardcoded URL and credentials — it does not fail: the result is `ok`,
not an error. -/
theorem config_counterexample :
    resolveConfig (fun _ => none) =
      Except.ok { url := portalUrl, user := username, pass := password }
    ∧ (resolveConfig (fun _ => none)).isOk = true := ⟨rfl, rfl⟩

/-- C7 (amended): the target URL, username and password are hardcoded
non-empty literals in the test scripts; the external environment is never
consulted, so a missing external value never causes an error — the
hardcoded values are used unconditionally. -/
theorem config_hardcoded (env : String → Option String) :
    resolveConfig env =
      Except.ok { url := portalUrl, user := username, pass := password }
    ∧ portalUrl ≠ "" ∧ username ≠ "" ∧ password ≠ "" :=
  ⟨rfl, by decide, by decide, by decide⟩

/-- C6: after an action, waitForNavigationAfterButtonClick returns the
most recently opened page (`pages[pages.length - 1]`) when more than one
page exists and its load wait resolves; with at most one page, or on any
error during the wait, it returns the current page — and it never throws
(the catch wrapper in `waitForNavAfterClick` maps every error to the
current page, so the operation is total). -/
theorem switch_to_newest_tab (pages : List Nat) (current : Nat) (ok : Bool) :
    (1 < pages.length → ok = true →
      waitForNavAfterClick pages current ok = pages.getD (pages.length - 1) current)
    ∧ (pages.length ≤ 1 → waitForNavAfterClick pages current ok = current)
    ∧ (ok = false → waitForNavAfterClick pages current ok = current) := by
  refine ⟨fun h1 hok => ?_, fun hle => ?_, fun hok => ?_⟩ <;>
    simp only [waitForNavAfterClick, waitForNavAfterClickBody]
  · rw [if_pos h1, hok]; simp
  · rw [if_neg (by omega)]
  · subst hok
    by_cases h1 : 1 < pages.length
    · rw [if_pos h1]; simp
    · rw [if_neg h1]

/-- Witness for `switch_to_newest_tab`: two pages and a successful load
yield the newest page; a single page, or a failed load wait, yield the
current page. -/
theorem switch_to_newest_tab_witness :
    waitForNavAfterClick [10, 20] 10 true = 20
    ∧ waitForNavAfterClick [10] 10 true = 10
    ∧ waitForNavAfterClick [10, 20] 10 false = 10 :=
  ⟨Eq.trans ((switch_to_newest_tab [10, 20] 10 true).1 (by decide) rfl) (by decide),
   (switch_to_newest_tab [10] 10 true).2.1 (by decide),
   (switch_to_newest_tab [10, 20] 10 false).2.2 rfl⟩

/-- C8: calling findCard twice in succession on an unchanged document
yields a reference to the same underlying element (same document
position): the second call, run from whatever session state the first
call left behind (scroll position, screenshots), returns exactly the
first call's reference, which is computed from the static document
alone. -/
theorem findCard_idempotent (d : PageDoc) (name : String) (s : SessionState) :
    (findCardDSt d name (findCardDSt d name s).2).1 = (findCardDSt d name s).1
    ∧ (findCardDSt d name s).1 = findCardD d name := by
  unfold findCardDSt
  cases findCardD d name <;> simp

/-- C3 counterexample: the returned result does NOT report which strategy
succeeded — an element whose forced click succeeds (strategy 1) and an
element whose forced click throws but whose script click succeeds
(strategy 2) produce the identical returned value, although their
succeeding strategies differ. -/
theorem click_result_counterexample :
    clickOutcome { forcedClickOk := true, hasClickFn := true,
                   scriptEvalOk := true, dispatchEvalOk := true }
      = clickOutcome { forcedClickOk := false, hasClickFn := true,
                       scriptEvalOk := true, dispatchEvalOk := true }
    ∧ (clickAttempts { forcedClickOk := true, hasClickFn := true,
                       scriptEvalOk := true, dispatchEvalOk := true }).getLast?
      ≠ (clickAttempts { forcedClickOk := false, hasClickFn := true,
                         scriptEvalOk := true, dispatchEvalOk := true }).getLast? := by
  constructor
  · rfl
  · decide

/-- C3 (amended): the click fallback makes at most three attempts, in the
fixed order forced click, script click, dispatched MouseEvent — the
attempt sequence is always a prefix of that order, with no attempt
repeated; on an element without a native click function the script-click
attempt itself dispatches a synthetic MouseEvent (and the third attempt
does so as well); the value returned to the caller is the bare boolean
`true`, carrying no strategy identifier. -/
theorem clickPortalFeatures_fallback (e : MenuItem) :
    clickAttempts e <+: [ClickStrategy.native, ClickStrategy.script, ClickStrategy.dispatch]
    ∧ (clickAttempts e).Nodup
    ∧ (clickAttempts e).length ≤ 3
    ∧ (e.forcedClickOk = false → e.scriptEvalOk = true → e.hasClickFn = false →
        syntheticDispatched e = true ∧ clickOutcome e = some true)
    ∧ (e.forcedClickOk = false → e.scriptEvalOk = false → e.dispatchEvalOk = true →
        syntheticDispatched e = true ∧ clickOutcome e = some true) := by
  obtain ⟨a, b, c, d⟩ := e
  cases a <;> cases b <;> cases c <;> cases d <;>
    refine ⟨?_, ?_, ?_, ?_, ?_⟩ <;> decide

/-- Witness for `clickPortalFeatures_fallback`: an element whose forced
click throws and which lacks a native click function has a synthetic
MouseEvent dispatched by the (successful) script-click attempt. -/
theorem clickPortalFeatures_fallback_witness :
    syntheticDispatched { forcedClickOk := false, hasClickFn := false,
                          scriptEvalOk := true, dispatchEvalOk := true } = true
    ∧ clickOutcome { forcedClickOk := false, hasClickFn := false,
                     scriptEvalOk := true, dispatchEvalOk := true } = some true :=
  (clickPortalFeatures_fallback
    { forcedClickOk := false, hasClickFn := false,
      scriptEvalOk := true, dispatchEvalOk := true }).2.2.2.1 rfl rfl rfl

/-- C1 counterexample: the claimed iff fails in both directions.  The
counts 5, 5, 5 are identical and non-zero across 3 consecutive polls, yet
the portal wait does not declare them stable (its counter increments only
when a poll equals the PREVIOUS poll, so the first of the three equal
counts does not count, the initial previous count being 0).  The
dashboard wait declares an all-zero count sequence stable (threshold 2,
no non-zero requirement), although the count is zero. -/
theorem stabilization_counterexample :
    portalStable [5, 5, 5] = false
    ∧ dashResult (fun _ => 0) 20000 [0, 0, 0, 0, 0] = DashExit.stable := by
  constructor
  · rfl
  · rfl

/-- C5 counterexample: the portal stabilization wait has no elapsed-time
check at all — called with a 3000 ms timeout budget on a never-stable
count stream it still executes all 10 polls, spending 10000 ms inside the
loop (one fixed 1000 ms wait per poll), exceeding the budget by far more
than one poll interval instead of transitioning to TimedOut. -/
theorem portal_no_timeout_counterexample :
    portalPollCount [1, 2, 1, 2, 1, 2, 1, 2, 1, 2] = 10
    ∧ 3000 + 1000 < 1000 * portalPollCount [1, 2, 1, 2, 1, 2, 1, 2, 1, 2] := by
  constructor
  · rfl
  · decide

/-- A shorter required run is implied by a longer one. -/
theorem hasRunFrom_mono (q : Nat → Nat → Bool) (f : Nat) :
    ∀ (cs : List Nat) (p m n : Nat), n ≤ m →
      hasRunFrom q f m p cs = true → hasRunFrom q f n p cs = true := by
  intro cs
  induction cs with
  | nil =>
    intro p m n hnm hm
    cases m with
    | zero =>
      have hn : n = 0 := by omega
      subst hn
      simp [hasRunFrom]
    | succ j => simp [hasRunFrom] at hm
  | cons c rest ih =>
    intro p m n hnm hm
    cases n with
    | zero => simp [hasRunFrom]
    | succ k =>
      cases m with
      | zero => omega
      | succ j =>
        simp only [hasRunFrom, Bool.or_eq_true, Bool.and_eq_true] at hm ⊢
        rcases hm with ⟨hq, hr⟩ | hr
        · exact Or.inl ⟨hq, ih c j k (by omega) hr⟩
        · exact Or.inr hr

/-- The portal stabilization loop declares the count stable exactly when
the polls contain 3 consecutive qualifying polls (each equal to its
predecessor and non-zero), the current counter credit `s` included. -/
theorem portalLoop_characterization :
    ∀ (cs : List Nat) (p s : Nat), s ≤ 3 →
      (portalLoop cs p s = true ↔ hasRunFrom qualP 3 (3 - s) p cs = true) := by
  intro cs
  induction cs with
  | nil =>
    intro p s hs
    simp only [portalLoop]
    constructor
    · intro h
      have h3 : s = 3 := by
        have := of_decide_eq_true h
        omega
      subst h3
      have h0 : (3 : Nat) - 3 = 0 := rfl
      rw [h0]
      simp [hasRunFrom]
    · intro h
      by_cases h3 : 3 ≤ s
      · exact decide_eq_true h3
      · exfalso
        have hns : 3 - s = (2 - s) + 1 := by omega
        rw [hns] at h
        simp [hasRunFrom] at h
  | cons c rest ih =>
    intro p s hs
    by_cases h3 : 3 ≤ s
    · have hs3 : s = 3 := by omega
      subst hs3
      have h0 : (3 : Nat) - 3 = 0 := rfl
      rw [h0]
      simp [portalLoop, hasRunFrom]
    · have hstep : portalLoop (c :: rest) p s
          = portalLoop rest c (if c = p ∧ 0 < c then s + 1 else 0) := by
        simp [portalLoop, h3]
      have hns : 3 - s = (2 - s) + 1 := by omega
      rw [hstep, hns]
      by_cases hq : c = p ∧ 0 < c
      · rw [if_pos hq]
        have hqb : qualP c p = true := by
          have h1 : decide (c = p) = true := decide_eq_true hq.1
          have h2 : decide (0 < c) = true := decide_eq_true hq.2
          simp [qualP, h1, h2]
        have ih1 := ih c (s + 1) (by omega)
        have h21 : 3 - (s + 1) = 2 - s := by omega
        rw [h21] at ih1
        constructor
        · intro h
          simp only [hasRunFrom, Bool.or_eq_true, Bool.and_eq_true]
          exact Or.inl ⟨hqb, ih1.mp h⟩
        · intro h
          simp only [hasRunFrom, Bool.or_eq_true, Bool.and_eq_true] at h
          apply ih1.mpr
          rcases h with ⟨_, hr⟩ | hr
          · exact hr
          · exact hasRunFrom_mono qualP 3 rest c 3 (2 - s) (by omega) hr
      · rw [if_neg hq]
        have hqb : qualP c p = false := by
          by_cases hcp : c = p
          · have hc0 : ¬ 0 < c := fun hc => hq ⟨hcp, hc⟩
            have h2 : decide (0 < c) = false := decide_eq_false hc0
            simp [qualP, h2]
          · have h1 : decide (c = p) = false := decide_eq_false hcp
            simp [qualP, h1]
        have ih0 := ih c 0 (by omega)
        rw [Nat.sub_zero] at ih0
        constructor
        · intro h
          simp only [hasRunFrom, Bool.or_eq_true]
          exact Or.inr (ih0.mp h)
        · intro h
          simp only [hasRunFrom, hqb, Bool.false_and, Bool.false_or] at h
          exact ih0.mpr h

/-- The dashboard stabilization loop exits stable exactly when the counts
contain 2 consecutive qualifying comparisons (each count equal to its
predecessor, zero allowed), provided the timeout never fires at a visited
attempt. -/
theorem dashLoop_characterization (elapsed : Nat → Nat) (t : Nat) :
    ∀ (cs : List Nat) (k p s : Nat), s ≤ 1 →
      (∀ j, j < k + cs.length → elapsed j ≤ t) →
      (dashLoop elapsed t cs k p s = DashExit.stable ↔
        hasRunFrom qualD 2 (2 - s) p cs = true) := by
  intro cs
  induction cs with
  | nil =>
    intro k p s hs hel
    simp only [dashLoop]
    constructor
    · intro h
      exact absurd h (by simp)
    · intro h
      exfalso
      have hns : 2 - s = (1 - s) + 1 := by omega
      rw [hns] at h
      simp [hasRunFrom] at h
  | cons c rest ih =>
    intro k p s hs hel
    have hek : elapsed k ≤ t := hel k (by simp)
    have hnt : ¬ t < elapsed k := by omega
    have hns : 2 - s = (1 - s) + 1 := by omega
    rw [hns]
    simp only [dashLoop, if_neg hnt]
    by_cases hcp : c = p
    · subst hcp
      rw [if_pos rfl]
      have hqb : qualD c c = true := by simp [qualD]
      cases hs1 : s with
      | zero =>
        rw [if_neg (by omega)]
        have ihr := ih (k + 1) c 1 (by omega)
          (fun j hj => hel j (by simp at hj ⊢; omega))
        have h11 : (2 : Nat) - 1 = 1 := rfl
        rw [h11] at ihr
        constructor
        · intro h
          simp only [hasRunFrom, Bool.or_eq_true, Bool.and_eq_true]
          exact Or.inl ⟨hqb, ihr.mp h⟩
        · intro h
          simp only [hasRunFrom, Bool.or_eq_true, Bool.and_eq_true] at h
          apply ihr.mpr
          rcases h with ⟨_, hr⟩ | hr
          · simpa using hr
          · exact hasRunFrom_mono qualD 2 rest c 2 1 (by omega) hr
      | succ n =>
        rw [if_pos (by omega)]
        constructor
        · intro _
          simp only [hasRunFrom, Bool.or_eq_true, Bool.and_eq_true]
          have hs0 : 1 - s = 0 := by omega
          rw [hs1] at hs0
          rw [hs0]
          exact Or.inl ⟨hqb, by simp [hasRunFrom]⟩
        · intro _
          rfl
    · rw [if_neg hcp]
      have hqb : qualD c p = false := by simp [qualD, hcp]
      have ihr := ih (k + 1) c 0 (by omega)
        (fun j hj => hel j (by simp at hj ⊢; omega))
      have h20 : (2 : Nat) - 0 = 2 := rfl
      rw [h20] at ihr
      constructor
      · intro h
        simp only [hasRunFrom, hqb, Bool.false_and, Bool.false_or]
        exact ihr.mp h
      · intro h
        simp only [hasRunFrom, hqb, Bool.false_and, Bool.false_or] at h
        exact ihr.mpr h

/-- C1 (corrected): the portal wait (waitForPortalPageLoad) declares the
card count stable exactly when, within its 10-poll budget, 3 consecutive
polls each show the same non-zero count as the poll before them (so four
consecutive identical samples counting the predecessor, the initial
previous count being 0); any intervening change resets the counter.  The
dashboard wait (waitForDashboardPageLoad) instead exits stable exactly
when, within its 5-comparison budget and absent a timeout, 2 consecutive
comparisons each show an unchanged count — with NO non-zero requirement,
so an unchanged zero count is declared stable. -/
theorem stabilization_characterization :
    (∀ cs : List Nat,
      (portalStable cs = true ↔ hasRunFrom qualP 3 3 0 (cs.take 10) = true))
    ∧ (∀ (elapsed : Nat → Nat) (t : Nat) (cs : List Nat),
        (∀ k, k < 5 → elapsed k ≤ t) →
        (dashResult elapsed t cs = DashExit.stable ↔
          hasRunFrom qualD 2 2 0 (cs.take 5) = true)) := by
  constructor
  · intro cs
    have h := portalLoop_characterization (cs.take 10) 0 0 (by omega)
    rw [Nat.sub_zero] at h
    exact h
  · intro elapsed t cs hel
    have hlen : (cs.take 5).length ≤ 5 := by
      rw [List.length_take]
      exact Nat.min_le_left _ _
    have h := dashLoop_characterization elapsed t (cs.take 5) 0 0 0 (by omega)
      (fun j hj => hel j (by omega))
    rw [Nat.sub_zero] at h
    exact h

/-- Witness for `stabilization_characterization`: portal counts 4,4,4,4
(four identical non-zero samples) and dashboard counts 7,7,7,7,7 under a
never-firing timeout. -/
theorem stabilization_characterization_witness :
    (portalStable [4, 4, 4, 4] = true ↔
      hasRunFrom qualP 3 3 0 ([4, 4, 4, 4].take 10) = true)
    ∧ (dashResult (fun _ => 0) 9000 [7, 7, 7, 7, 7] = DashExit.stable ↔
        hasRunFrom qualD 2 2 0 ([7, 7, 7, 7, 7].take 5) = true) :=
  ⟨stabilization_characterization.1 [4, 4, 4, 4],
   stabilization_characterization.2 (fun _ => 0) 9000 [7, 7, 7, 7, 7]
     (fun _ _ => Nat.zero_le 9000)⟩

/-- The dashboard loop performs at most `k - k0` comparisons from attempt
`k0` once the elapsed time exceeds the budget at attempt `k`. -/
theorem dashPolls_le (elapsed : Nat → Nat) (t : Nat) :
    ∀ (cs : List Nat) (k0 p s k : Nat), k0 ≤ k → t < elapsed k →
      dashPolls elapsed t cs k0 p s ≤ k - k0 := by
  intro cs
  induction cs with
  | nil =>
    intro k0 p s k h1 h2
    simp [dashPolls]
  | cons c rest ih =>
    intro k0 p s k h1 h2
    by_cases ht : t < elapsed k0
    · simp [dashPolls, ht]
    · have hk0 : k0 < k := by
        rcases Nat.eq_or_lt_of_le h1 with he | hl
        · exact absurd h2 (by rw [← he]; exact ht)
        · exact hl
      simp only [dashPolls, if_neg ht]
      by_cases hcp : c = p
      · rw [if_pos hcp]
        by_cases hs2 : 2 ≤ s + 1
        · rw [if_pos hs2]
          omega
        · rw [if_neg hs2]
          have := ih (k0 + 1) p (s + 1) k (by omega) h2
          omega
      · rw [if_neg hcp]
        have := ih (k0 + 1) c 0 k (by omega) h2
        omega

/-- Number of portal stabilization polls is bounded by the poll list. -/
theorem portalPolls_le : ∀ (cs : List Nat) (p s : Nat),
    portalPolls cs p s ≤ cs.length := by
  intro cs
  induction cs with
  | nil =>
    intro p s
    simp [portalPolls]
  | cons c rest ih =>
    intro p s
    simp only [portalPolls, List.length_cons]
    split
    · omega
    · have h := ih c (if c = p ∧ 0 < c then s + 1 else 0)
      omega

/-- C5 (corrected): the dashboard wait's stabilization loop stops polling
once the elapsed time exceeds its timeout budget regardless of the
stability counter (at most `k` comparisons happen if the budget is
exceeded at attempt `k`).  The portal wait's stabilization loop has NO
elapsed-time check: it is bounded only by its fixed 10-poll cap,
independent of the timeout argument; when the card selector never matches
(zero matching elements) the portal wait returns before entering the loop
(zero polls), its pre-loop selector waits each being bounded by a third of
the timeout. -/
theorem waiter_timeout_budget :
    (∀ (elapsed : Nat → Nat) (t : Nat) (cs : List Nat) (k : Nat),
      t < elapsed k → dashPollCount elapsed t cs ≤ k)
    ∧ (∀ cs : List Nat, portalPollCount cs ≤ 10)
    ∧ (∀ e : PortalLoadEnv, e.cardsAppear = false → portalLoadPollCount e = 0) := by
  refine ⟨?_, ?_, ?_⟩
  · intro elapsed t cs k hk
    have h := dashPolls_le elapsed t (cs.take 5) 0 0 0 k (Nat.zero_le k) hk
    simpa [dashPollCount] using h
  · intro cs
    have h1 := portalPolls_le (cs.take 10) 0 0
    have h2 : (cs.take 10).length ≤ 10 := by
      rw [List.length_take]
      exact Nat.min_le_left _ _
    calc portalPollCount cs = portalPolls (cs.take 10) 0 0 := rfl
      _ ≤ (cs.take 10).length := h1
      _ ≤ 10 := h2
  · intro e he
    simp [portalLoadPollCount, he]

/-- Witness for `waiter_timeout_budget`: a budget of 500 ms exceeded at
attempt 1 caps the dashboard loop at one comparison; a short poll list
stays under the portal cap; a missing card selector yields zero polls. -/
theorem waiter_timeout_budget_witness :
    dashPollCount (fun k => 1000 * k) 500 [3, 3, 3, 3, 3] ≤ 1
    ∧ portalPollCount [1, 1] ≤ 10
    ∧ portalLoadPollCount noCardsEnv = 0 :=
  ⟨waiter_timeout_budget.1 (fun k => 1000 * k) 500 [3, 3, 3, 3, 3] 1 (by decide),
   waiter_timeout_budget.2.1 [1, 1],
   waiter_timeout_budget.2.2 noCardsEnv rfl⟩

/-- Shifting the running index out of one strategy loop: on a list whose
reads all resolve, the loop computes the first match in document order. -/
theorem findByFieldFrom_clean (get : CardElem → JsResult String) (name : String) :
    ∀ (cs : List CardElem) (i : Nat),
      (∀ c ∈ cs, jsOk (get c) = true ∧ c.scrollOk = true) →
      findByFieldFrom get name i cs =
        .ok ((firstMatch (fieldMatches get name) cs).map (fun x => (x.1 + i, x.2))) := by
  intro cs
  induction cs with
  | nil =>
    intro i h
    simp [findByFieldFrom, firstMatch]
  | cons c rest ih =>
    intro i h
    obtain ⟨hok, hscroll⟩ := h c (by simp)
    have hrest : ∀ x ∈ rest, jsOk (get x) = true ∧ x.scrollOk = true :=
      fun x hx => h x (by simp [hx])
    obtain ⟨t, hget⟩ : ∃ t, get c = .ok t := by
      cases hg : get c with
      | error e => rw [hg] at hok; simp [jsOk] at hok
      | ok t => exact ⟨t, rfl⟩
    have hfm : fieldMatches get name c = (if t = "" then false else containsCI t name) := by
      simp [fieldMatches, hget]
    simp only [findByFieldFrom, hget]
    by_cases ht : t = ""
    · have hfm0 : fieldMatches get name c = false := by rw [hfm, if_pos ht]
      rw [if_pos ht, ih (i + 1) hrest]
      simp only [firstMatch, hfm0]
      cases hf : firstMatch (fieldMatches get name) rest with
      | none => simp
      | some x => simp; omega
    · cases hci : containsCI t name with
      | true =>
        have hfm1 : fieldMatches get name c = true := by rw [hfm, if_neg ht, hci]
        rw [if_neg ht, if_pos rfl, if_pos hscroll]
        simp [firstMatch, hfm1]
      | false =>
        have hfm0 : fieldMatches get name c = false := by rw [hfm, if_neg ht, hci]
        rw [if_neg ht, if_neg Bool.false_ne_true, ih (i + 1) hrest]
        simp only [firstMatch, hfm0]
        cases hf : firstMatch (fieldMatches get name) rest with
        | none => simp
        | some x => simp; omega

/-- The first match is a match, and nothing before it matches. -/
theorem firstMatch_least (p : CardElem → Bool) :
    ∀ (cs : List CardElem) (i : Nat) (c : CardElem),
      firstMatch p cs = some (i, c) →
      i < cs.length ∧ p c = true ∧ ∀ j, j < i → p (cs.getD j c) = false := by
  intro cs
  induction cs with
  | nil =>
    intro i c h
    simp [firstMatch] at h
  | cons a rest ih =>
    intro i c h
    simp only [firstMatch] at h
    cases hpa : p a with
    | true =>
      rw [if_pos hpa] at h
      injection h with h2
      injection h2 with hi hc
      subst hi
      subst hc
      refine ⟨by simp, hpa, ?_⟩
      intro j hj
      exact absurd hj (by omega)
    | false =>
      rw [if_neg (by rw [hpa]; exact Bool.false_ne_true)] at h
      cases hf : firstMatch p rest with
      | none => rw [hf] at h; simp at h
      | some x =>
        obtain ⟨m, d⟩ := x
        rw [hf] at h
        have h2 : (m + 1, d) = (i, c) := by
          simpa using h
        injection h2 with hi hc
        subst hi
        subst hc
        obtain ⟨h1, h2, h3⟩ := ih m d hf
        refine ⟨by simp; omega, h2, ?_⟩
        intro j hj
        cases j with
        | zero => simpa using hpa
        | succ jj =>
          have := h3 jj (by omega)
          simpa using this

/-- Index-shifted map at offset 0 is the identity. -/
theorem map_add_zero (o : Option (Nat × CardElem)) :
    o.map (fun x => (x.1 + 0, x.2)) = o := by
  cases o <;> simp

/-- Splitting a clean card's `cardClean` into the per-strategy facts. -/
theorem cardClean_split (cs : List CardElem) (h : ∀ c ∈ cs, cardClean c = true) :
    (∀ c ∈ cs, jsOk c.titleOp = true ∧ c.scrollOk = true)
    ∧ (∀ c ∈ cs, jsOk c.textOp = true ∧ c.scrollOk = true) := by
  constructor <;> intro c hc <;>
    · have hcl := h c hc
      simp only [cardClean, Bool.and_eq_true] at hcl
      exact ⟨by tauto, hcl.2⟩

/-- On a clean document, `DashboardPage.findCard`'s body resolves to the
first title match, else the first content match, else the page-wide text
strategy. -/
theorem findCardBodyD_clean (d : PageDoc) (name : String) (cs : List CardElem)
    (hcs : d.cards = .ok cs) (hclean : ∀ c ∈ cs, cardClean c = true)
    (hts : d.textScrollOk = true) :
    findCardBodyD d name =
      .ok (match firstMatch (titleMatches name) cs with
        | some (i, c) => some (CardRef.card i c)
        | none =>
          match firstMatch (contentMatches name) cs with
          | some (i, c) => some (CardRef.card i c)
          | none => if 0 < d.textCount name then some CardRef.textFirst else none) := by
  obtain ⟨hT, hC⟩ := cardClean_split cs hclean
  have e1 := findByFieldFrom_clean (fun c => c.titleOp) name cs 0 hT
  have e2 := findByFieldFrom_clean (fun c => c.textOp) name cs 0 hC
  rw [map_add_zero] at e1 e2
  simp only [findCardBodyD, hcs, e1, e2, titleMatches, contentMatches]
  cases h1 : firstMatch (fieldMatches (fun c => c.titleOp) name) cs with
  | some ic =>
    obtain ⟨i, c⟩ := ic
    rfl
  | none =>
    cases h2 : firstMatch (fieldMatches (fun c => c.textOp) name) cs with
    | some ic =>
      obtain ⟨i, c⟩ := ic
      rfl
    | none =>
      by_cases h3 : 0 < d.textCount name
      · rw [if_pos h3, if_pos h3, hts, if_pos rfl]
      · rw [if_neg h3, if_neg h3]

/-- On a clean document, `PortalPage.findCard`'s body resolves to the first
title match, else the first content match — there is no page-wide
strategy. -/
theorem findCardBodyP_clean (d : PageDoc) (name : String) (cs : List CardElem)
    (hcs : d.cards = .ok cs) (hclean : ∀ c ∈ cs, cardClean c = true) :
    findCardBodyP d name =
      .ok (match firstMatch (titleMatches name) cs with
        | some ic => some ic
        | none => firstMatch (contentMatches name) cs) := by
  obtain ⟨hT, hC⟩ := cardClean_split cs hclean
  have e1 := findByFieldFrom_clean (fun c => c.titleOp) name cs 0 hT
  have e2 := findByFieldFrom_clean (fun c => c.textOp) name cs 0 hC
  rw [map_add_zero] at e1 e2
  simp only [findCardBodyP, hcs, e1, e2, titleMatches, contentMatches]
  cases h1 : firstMatch (fieldMatches (fun c => c.titleOp) name) cs with
  | some ic => rfl
  | none =>
    cases h2 : firstMatch (fieldMatches (fun c => c.textOp) name) cs with
    | some ic => rfl
    | none => rfl

/-- C2 (corrected): findCard tries its strategies in the fixed order
title match, then card-content substring match, then — in the dashboard
version ONLY — the page-wide text search; each card strategy uses the
case-insensitive substring predicate, and within a strategy the first
matching element in DOCUMENT ORDER is returned with NO visibility check
(the portal version omits the page-wide search and returns null instead).
The third conjunct states the first-in-document-order minimality of
`firstMatch`. -/
theorem findCard_strategy_order (d : PageDoc) (name : String) (cs : List CardElem)
    (hcs : d.cards = Except.ok cs) (hclean : ∀ c ∈ cs, cardClean c = true)
    (hts : d.textScrollOk = true) :
    (findCardD d name =
      match firstMatch (titleMatches name) cs with
      | some (i, c) => some (CardRef.card i c)
      | none =>
        match firstMatch (contentMatches name) cs with
        | some (i, c) => some (CardRef.card i c)
        | none => if 0 < d.textCount name then some CardRef.textFirst else none)
    ∧ (findCardP d name =
      match firstMatch (titleMatches name) cs with
      | some ic => some ic
      | none => firstMatch (contentMatches name) cs)
    ∧ (∀ (p : CardElem → Bool) (i : Nat) (c : CardElem),
        firstMatch p cs = some (i, c) →
        i < cs.length ∧ p c = true ∧ ∀ j, j < i → p (cs.getD j c) = false) := by
  refine ⟨?_, ?_, fun p i c h => firstMatch_least p cs i c h⟩
  · unfold findCardD
    rw [findCardBodyD_clean d name cs hcs hclean hts]
  · unfold findCardP
    rw [findCardBodyP_clean d name cs hcs hclean]

/-- Witness for `findCard_strategy_order`: on a clean two-card document
the name "beta" resolves to the second card (document position 1) by the
title strategy, for both the dashboard and the portal resolver. -/
theorem findCard_strategy_order_witness :
    findCardD wDoc "beta" = some (CardRef.card 1 cBeta)
    ∧ findCardP wDoc "beta" = some (1, cBeta) :=
  ⟨Eq.trans
      (findCard_strategy_order wDoc "beta" [cPlain, cBeta] rfl (by decide) rfl).1
      (by rfl),
   Eq.trans
      (findCard_strategy_order wDoc "beta" [cPlain, cBeta] rfl (by decide) rfl).2.1
      (by rfl)⟩

/-- C2 counterexample: the claim's "first matching VISIBLE element" is
wrong — `findCard` performs no visibility check: on a document whose first
matching card is hidden and whose second matching card is visible, the
hidden one is returned.  And the claimed page-wide text search does not
exist in the portal resolver: on a document with no cards but three
page-wide text matches, `PortalPage.findCard` returns null while
`DashboardPage.findCard` returns the text match. -/
theorem findCard_visibility_counterexample :
    findCardD exDocVis "events" = some (CardRef.card 0 cHidden)
    ∧ cHidden.visible = false
    ∧ titleMatches "events" cVisible = true
    ∧ cVisible.visible = true
    ∧ findCardP exDocTxt "events" = none
    ∧ 0 < exDocTxt.textCount "events"
    ∧ findCardD exDocTxt "events" = some CardRef.textFirst :=
  ⟨rfl, rfl, rfl, rfl, rfl, by decide, rfl⟩

/-- C4: findCard converts element absence and internal lookup errors into
a null return value, never into a propagated exception: any error thrown
in the body is caught and becomes `none` (first two conjuncts), and on a
clean document where no strategy matches the body itself already completes
normally with `ok none` (third conjunct) — absence is a return value, not
an exception, for both the dashboard and the portal resolver. -/
theorem findCard_never_throws :
    (∀ (d : PageDoc) (name : String) (e : Unit),
      findCardBodyD d name = .error e → findCardD d name = none)
    ∧ (∀ (d : PageDoc) (name : String) (e : Unit),
      findCardBodyP d name = .error e → findCardP d name = none)
    ∧ (∀ (d : PageDoc) (name : String) (cs : List CardElem),
        d.cards = .ok cs → (∀ c ∈ cs, cardClean c = true) →
        firstMatch (titleMatches name) cs = none →
        firstMatch (contentMatches name) cs = none →
        d.textCount name = 0 →
        findCardBodyD d name = .ok none ∧ findCardD d name = none
          ∧ findCardBodyP d name = .ok none ∧ findCardP d name = none) := by
  refine ⟨?_, ?_, ?_⟩
  · intro d name e h
    unfold findCardD
    rw [h]
  · intro d name e h
    unfold findCardP
    rw [h]
  · intro d name cs hcs hclean h1 h2 h3
    obtain ⟨hT, hC⟩ := cardClean_split cs hclean
    have e1 := findByFieldFrom_clean (fun c => c.titleOp) name cs 0 hT
    have e2 := findByFieldFrom_clean (fun c => c.textOp) name cs 0 hC
    rw [map_add_zero] at e1 e2
    simp only [titleMatches] at h1
    simp only [contentMatches] at h2
    rw [h1] at e1
    rw [h2] at e2
    have hbd : findCardBodyD d name = .ok none := by
      simp [findCardBodyD, hcs, e1, e2, h3]
    have hbp : findCardBodyP d name = .ok none := by
      simp [findCardBodyP, hcs, e1, e2]
    refine ⟨hbd, ?_, hbp, ?_⟩
    · unfold findCardD
      rw [hbd]
    · unfold findCardP
      rw [hbp]

/-- Witness for `findCard_never_throws`: a clean two-card document and a
name matching nothing yields `ok none` bodies and null results. -/
theorem findCard_never_throws_witness :
    findCardBodyD wDoc "zzz" = Except.ok none ∧ findCardD wDoc "zzz" = none
    ∧ findCardBodyP wDoc "zzz" = Except.ok none ∧ findCardP wDoc "zzz" = none :=
  findCard_never_throws.2.2 wDoc "zzz" [cPlain, cBeta] rfl (by decide)
    (by rfl) (by rfl) rfl

/-- C10: the find/click operations on cards, buttons and icons catch their
errors and return false, null or an empty result instead of propagating —
shown for a failing card query, which every one of them absorbs — while
the login path re-raises: with a login form that never appears, both
EllucianLoginPage.waitForLoginForm and LoginPage.loginAndWaitForNavigation
complete with a propagated error. -/
theorem error_propagation_policy :
    (∀ (d : PageDoc) (name : String) (bt : Option String) (b1 b2 : Bool),
      d.cards = Except.error () →
      findCardP d name = none ∧ findCardD d name = none ∧ getAllCards d = []
        ∧ clickCardButton d name bt b1 = false ∧ clickCard d name = false
        ∧ clickCardIcon d name b2 = false)
    ∧ (∀ e : LoginEnv, e.formAppears = false →
        waitForLoginForm e = Except.error ()
          ∧ loginAndWaitForNavigation e = Except.error ()) := by
  constructor
  · intro d name bt b1 b2 hq
    have hp : findCardP d name = none := by
      simp [findCardP, findCardBodyP, hq]
    refine ⟨hp, ?_, ?_, ?_, ?_, ?_⟩
    · simp [findCardD, findCardBodyD, hq]
    · simp [getAllCards, hq]
    · simp [clickCardButton, clickCardButtonBody, hp]
    · simp [clickCard, clickCardBody, hp]
    · simp [clickCardIcon, clickCardIconBody, hp]
  · intro e he
    constructor
    · simp [waitForLoginForm, he]
    · cases hg : e.gotoOk <;> simp [loginAndWaitForNavigation, he, hg]

/-- Witness for `error_propagation_policy`: a document whose card query
throws, and a login environment whose form never appears. -/
theorem error_propagation_policy_witness :
    (findCardP errDoc "x" = none ∧ findCardD errDoc "x" = none
      ∧ getAllCards errDoc = []
      ∧ clickCardButton errDoc "x" (some "go") false = false
      ∧ clickCard errDoc "x" = false ∧ clickCardIcon errDoc "x" false = false)
    ∧ (waitForLoginForm badLogin = Except.error ()
        ∧ loginAndWaitForNavigation badLogin = Except.error ()) :=
  ⟨error_propagation_policy.1 errDoc "x" (some "go") false false rfl,
   error_propagation_policy.2 badLogin rfl⟩

end Pw
